import Mathlib

set_option maxRecDepth 40000

/-!
Verification of the query-composition and response-shaping layer of the
mysql-express-app repository (src/app.js): ten read-only report endpoints
over a students / courses / enrollments schema.

Two layers are embedded:

* a composition layer: for each endpoint, the exact query template string
  and the ordered bound-parameter list handed to `pool.query`;
* a semantics layer: the relational meaning of each query over an explicit
  database state (lists of rows), with SQL NULL modelled by `Option`,
  joins by list products, GROUP BY by key deduplication, and aggregate
  skipping of NULL by `List.filterMap`.

JavaScript input coercion (`parseInt`, `parseFloat`, `||` defaulting,
string truthiness, `String.split`) is modelled explicitly where an
endpoint's behaviour depends on it.
-/

namespace SchoolApp

/-- Letter grade of an enrollment; the column is nullable, so enrollment
rows carry `Option Letter` (none = SQL NULL, "in progress"). -/
inductive Letter where
  | A | B | C | D | F
deriving DecidableEq, Repr

/-- Row of the students table (columns used by the queries). `grade` is the
integer year level 9-12. Dates are modelled as naturals (only ordering and
MAX are ever used on them). -/
structure Student where
  student_id : Nat
  first_name : String
  last_name : String
  email : String
  grade : Int
  enrollment_date : Nat
deriving DecidableEq, Repr

/-- Row of the courses table. -/
structure Course where
  course_id : Nat
  course_name : String
  department : String
  credits : Nat
deriving DecidableEq, Repr

/-- Row of the enrollments table; `grade` is the nullable letter grade. -/
structure Enrollment where
  enrollment_id : Nat
  student_id : Nat
  course_id : Nat
  enrollment_date : Nat
  grade : Option Letter
deriving DecidableEq, Repr

/-- A database state: the three tables, as lists of rows. -/
structure Db where
  students : List Student
  courses : List Course
  enrollments : List Enrollment
deriving DecidableEq, Repr

/-! ### List machinery: ORDER BY (insertion sort) and GROUP BY keys -/

/-- Insert `a` in front of the first element `b` with `le a b`. -/
def insertBy (le : α → α → Bool) (a : α) : List α → List α
  | [] => [a]
  | b :: t => if le a b then a :: b :: t else b :: insertBy le a t

/-- Stable insertion sort; models ORDER BY (ties keep list order). -/
def sortBy (le : α → α → Bool) : List α → List α
  | [] => []
  | a :: t => insertBy le a (sortBy le t)

/-- First-occurrence deduplication with an accumulator of already seen
keys; models the set of GROUP BY keys of a result set. -/
def dedupAcc [DecidableEq α] : List α → List α → List α
  | [], _ => []
  | a :: t, seen => if a ∈ seen then dedupAcc t seen else a :: dedupAcc t (a :: seen)

/-- The distinct values of `l`, first occurrences kept in order. -/
def dedupKeys [DecidableEq α] (l : List α) : List α := dedupAcc l []

/-! ### SQL value helpers: NULL-skipping aggregates, rounding, concat -/

/-- SQL AVG over a column of nullable rationals: NULL entries are skipped;
the result is NULL iff no non-NULL value exists. -/
def sqlAvg (l : List (Option Rat)) : Option Rat :=
  let vs := l.filterMap id
  if vs.length = 0 then none else some (vs.sum / (vs.length : Rat))

/-- SQL SUM over a column of nullable rationals: NULL entries are skipped;
NULL iff no non-NULL value exists. -/
def sqlSum (l : List (Option Rat)) : Option Rat :=
  let vs := l.filterMap id
  if vs.length = 0 then none else some vs.sum

/-- MySQL ROUND(x, 2) on exact decimal values: half away from zero. -/
def mysqlRound2 (q : Rat) : Rat :=
  if q < 0 then -((Rat.floor (-q * 100 + 1/2) : Rat) / 100)
  else ((Rat.floor (q * 100 + 1/2) : Rat) / 100)

/-- MySQL GROUP_CONCAT with a separator: NULL when there is no value. -/
def groupConcat (sep : String) (l : List String) : Option String :=
  match l with
  | [] => none
  | _ => some (String.intercalate sep l)

/-- The CASE grade-point mapping WITHOUT an ELSE branch, as written in the
student-performance, course-details, top-performers and department
queries: an unmatched input (NULL grade) yields NULL. -/
def gradePointsNoElse : Option Letter → Option Rat
  | some Letter.A => some 4
  | some Letter.B => some 3
  | some Letter.C => some 2
  | some Letter.D => some 1
  | some Letter.F => some 0
  | none => none

/-- The CASE grade-point mapping of the popular-courses query, which ends
in ELSE 0.0: both an F grade and a NULL grade fall into the ELSE branch
and produce 0.0 (a real value, counted by AVG). -/
def gradePointsElse0 : Option Letter → Rat
  | some Letter.A => 4
  | some Letter.B => 3
  | some Letter.C => 2
  | some Letter.D => 1
  | _ => 0

/-- AVG of the no-ELSE CASE mapping over a list of (nullable) grades:
the gpa aggregate of student-performance and course-details, and the
rating aggregate of top-performers and departments. -/
def gpaNoElseAvg (gs : List (Option Letter)) : Option Rat :=
  sqlAvg (gs.map gradePointsNoElse)

/-- AVG of the ELSE-0.0 CASE mapping over a list of (nullable) grades:
the average_gpa aggregate of popular-courses. -/
def gpaElse0Avg (gs : List (Option Letter)) : Option Rat :=
  sqlAvg (gs.map (fun g => some (gradePointsElse0 g)))

/-! ### JavaScript input-coercion layer -/

/-- Numeric value of a digit run. -/
def digitsVal (cs : List Char) : Nat :=
  cs.foldl (fun acc c => acc * 10 + (c.toNat - '0'.toNat)) 0

/-- Model of JavaScript parseInt on a decimal numeral: an optional sign
followed by a longest digit prefix; `none` models NaN (no digits, or the
argument absent/undefined). Hex/exponent forms are out of scope: no
caller of the endpoints under test needs them. -/
def parseIntJS : Option String → Option Int
  | none => none
  | some s =>
    let cs := s.toList
    let (sign, rest) :=
      match cs with
      | '-' :: t => ((-1 : Int), t)
      | '+' :: t => ((1 : Int), t)
      | t => ((1 : Int), t)
    let ds := rest.takeWhile (·.isDigit)
    if ds.length = 0 then none else some (sign * (digitsVal ds : Int))

/-- Model of JavaScript parseFloat on a decimal numeral: optional sign,
integer digits, optional fractional digits; longest valid prefix; `none`
models NaN. -/
def parseFloatJS : Option String → Option Rat
  | none => none
  | some s =>
    let cs := s.toList
    let (sign, rest) :=
      match cs with
      | '-' :: t => ((-1 : Rat), t)
      | '+' :: t => ((1 : Rat), t)
      | t => ((1 : Rat), t)
    let ds := rest.takeWhile (·.isDigit)
    let rest2 := rest.drop ds.length
    let fs :=
      match rest2 with
      | '.' :: t => t.takeWhile (·.isDigit)
      | _ => []
    if ds.length = 0 ∧ fs.length = 0 then none
    else
      some (sign * ((digitsVal ds : Rat) + (digitsVal fs : Rat) / (10 : Rat) ^ fs.length))

/-- JavaScript `x || d` on the result of parseInt: NaN and 0 are falsy
and give the default. -/
def jsOrInt (v : Option Int) (d : Int) : Int :=
  match v with
  | none => d
  | some n => if n = 0 then d else n

/-- JavaScript `x || d` on the result of parseFloat: NaN and 0 are falsy
and give the default. -/
def jsOrRat (v : Option Rat) (d : Rat) : Rat :=
  match v with
  | none => d
  | some x => if x = 0 then d else x

/-- JavaScript truthiness of an optional string: absent (undefined) and
the empty string are falsy. -/
def truthy : Option String → Bool
  | none => false
  | some s => s ≠ ""

/-- minCourses of the top-performers handler:
`parseInt(req.query.minCourses) || 3`. -/
def minCoursesOf (q : Option String) : Int := jsOrInt (parseIntJS q) 3

/-- minGPA of the top-performers handler:
`parseFloat(req.query.minGPA) || 3.5`. -/
def minGPAOf (q : Option String) : Rat := jsOrRat (parseFloatJS q) (7/2)

/-- minGPA of the student-performance handler:
`parseFloat(req.query.minGPA) || 0`. -/
def spMinGPAOf (q : Option String) : Rat := jsOrRat (parseFloatJS q) 0

/-! ### Composition layer: the query text and bound-parameter list each
handler passes to `pool.query`. Values reach the store only through this
parameter list; the text is assembled from string literals alone. -/

/-- A bound parameter as handed to the mysql2 driver: a string, an
integer, a numeric (float) value, NaN (a failed parseInt passed through),
or an array (bound into an IN-list). -/
inductive SqlParam where
  | str (s : String)
  | int (n : Int)
  | num (q : Rat)
  | nan
  | list (xs : List String)
deriving DecidableEq, Repr

/-- A parseInt result as a bound parameter (none = NaN). -/
def intParam (v : Option Int) : SqlParam :=
  match v with
  | none => SqlParam.nan
  | some n => SqlParam.int n

/-- Number of positional placeholders in a query template. -/
def placeholderCount (s : String) : Nat := s.data.count '?'

/-- Accumulator for `splitComma`: characters of the current field are
collected in reverse. -/
def splitCommaAux : List Char → List Char → List String
  | [], acc => [String.mk acc.reverse]
  | c :: t, acc =>
    if c = ',' then String.mk acc.reverse :: splitCommaAux t []
    else splitCommaAux t (c :: acc)

/-- Model of JavaScript `s.split(',')`: fields between commas, in order.
Like the JavaScript original, the empty string splits to `[""]` — a list
of length one, never the empty list. -/
def splitComma (s : String) : List String := splitCommaAux s.data []

/-- Template of endpoint 1, GET /api/students/grade/:grade. -/
def studentsByGradeSql : String :=
  "SELECT student_id, first_name, last_name, email, grade, enrollment_date
   FROM students
   WHERE grade = ?
   ORDER BY last_name, first_name"

/-- Endpoint 1 composition: the grade path parameter is bound, never
concatenated. -/
def studentsByGradeCompose (grade : String) : String × List SqlParam :=
  (studentsByGradeSql, [SqlParam.str grade])

/-- Template of endpoint 2, GET /api/students/:studentId/enrollments. -/
def studentEnrollmentsSql : String :=
  "SELECT s.student_id, s.first_name, s.last_name, c.course_id, c.course_name,
          c.credits, e.enrollment_date, e.grade
   FROM students s
   INNER JOIN enrollments e ON s.student_id = e.student_id
   INNER JOIN courses c ON e.course_id = c.course_id
   WHERE s.student_id = ?
   ORDER BY e.enrollment_date DESC"

/-- Endpoint 2 composition. -/
def studentEnrollmentsCompose (studentId : String) : String × List SqlParam :=
  (studentEnrollmentsSql, [SqlParam.str studentId])

/-- Template of endpoint 3, GET /api/students/all-with-enrollments. -/
def allWithEnrollmentsSql : String :=
  "SELECT s.student_id, s.first_name, s.last_name, s.grade,
          COUNT(e.enrollment_id) as total_enrollments,
          GROUP_CONCAT(c.course_name SEPARATOR ', ') as courses
   FROM students s
   LEFT JOIN enrollments e ON s.student_id = e.student_id
   LEFT JOIN courses c ON e.course_id = c.course_id
   GROUP BY s.student_id, s.first_name, s.last_name, s.grade
   ORDER BY s.last_name"

/-- Endpoint 3 composition: no request input reaches the query at all. -/
def allWithEnrollmentsCompose : String × List SqlParam :=
  (allWithEnrollmentsSql, [])

/-- Template of endpoint 4, GET /api/analytics/students-per-grade. -/
def studentsPerGradeSql : String :=
  "SELECT grade, COUNT(*) as student_count, COUNT(DISTINCT email) as unique_emails
   FROM students
   GROUP BY grade
   ORDER BY grade"

/-- Endpoint 4 composition: no request input reaches the query. -/
def studentsPerGradeCompose : String × List SqlParam :=
  (studentsPerGradeSql, [])

/-- Template of endpoint 5, GET /api/courses/popular/:minEnrollments. -/
def popularCoursesSql : String :=
  "SELECT c.course_id, c.course_name, c.credits,
          COUNT(e.enrollment_id) as enrollment_count,
          AVG(CASE WHEN e.grade = 'A' THEN 4.0
                   WHEN e.grade = 'B' THEN 3.0
                   WHEN e.grade = 'C' THEN 2.0
                   WHEN e.grade = 'D' THEN 1.0
                   ELSE 0.0 END) as average_gpa
   FROM courses c
   INNER JOIN enrollments e ON c.course_id = e.course_id
   GROUP BY c.course_id, c.course_name, c.credits
   HAVING COUNT(e.enrollment_id) >= ?
   ORDER BY enrollment_count DESC, average_gpa DESC"

/-- Endpoint 5 composition: `pool.query(query, [parseInt(minEnrollments)])`;
a non-numeric path value yields NaN, bound as-is. -/
def popularCoursesCompose (minEnrollments : String) : String × List SqlParam :=
  (popularCoursesSql, [intParam (parseIntJS (some minEnrollments))])

/-- The part of the student-performance template before the conditional
grade predicate splice (endpoint 6). -/
def spSqlPrefix : String :=
  "SELECT s.student_id, s.first_name, s.last_name, s.grade as student_grade,
          COUNT(e.enrollment_id) as courses_taken,
          SUM(c.credits) as total_credits,
          AVG(CASE WHEN e.grade = 'A' THEN 4.0
                   WHEN e.grade = 'B' THEN 3.0
                   WHEN e.grade = 'C' THEN 2.0
                   WHEN e.grade = 'D' THEN 1.0
                   WHEN e.grade = 'F' THEN 0.0 END) as gpa,
          GROUP_CONCAT(CONCAT(c.course_name, ' (', e.grade, ')')
                       ORDER BY e.enrollment_date DESC SEPARATOR ' | ') as course_history
   FROM students s
   INNER JOIN enrollments e ON s.student_id = e.student_id
   INNER JOIN courses c ON e.course_id = c.course_id
   WHERE 1=1
     "

/-- The part of the student-performance template after the conditional
grade predicate splice. -/
def spSqlSuffix : String :=
  "
   GROUP BY s.student_id, s.first_name, s.last_name, s.grade
   HAVING AVG(CASE WHEN e.grade = 'A' THEN 4.0
                   WHEN e.grade = 'B' THEN 3.0
                   WHEN e.grade = 'C' THEN 2.0
                   WHEN e.grade = 'D' THEN 1.0
                   WHEN e.grade = 'F' THEN 0.0 END) >= ?
   ORDER BY gpa DESC, total_credits DESC"

/-- Endpoint 6 composition, GET /api/analytics/student-performance.
Mirrors the source exactly: the template splices the fixed fragment
`AND s.grade = ?` iff `grade` is truthy (supplied and non-empty), and
`const params = grade ? [grade, minGPA] : [minGPA]`. -/
def studentPerformanceCompose (minGPAq gradeq : Option String) :
    String × List SqlParam :=
  let minGPA := spMinGPAOf minGPAq
  (spSqlPrefix ++ (if truthy gradeq then "AND s.grade = ?" else "") ++ spSqlSuffix,
   if truthy gradeq then [SqlParam.str (gradeq.getD ""), SqlParam.num minGPA]
   else [SqlParam.num minGPA])

/-- Template of endpoint 7, GET /api/students/in-courses. -/
def inCoursesSql : String :=
  "SELECT DISTINCT s.student_id, s.first_name, s.last_name, s.email, s.grade,
          (SELECT COUNT(*) FROM enrollments e2
           WHERE e2.student_id = s.student_id AND e2.course_id IN (?)) as matching_course_count
   FROM students s
   WHERE s.student_id IN (SELECT DISTINCT student_id FROM enrollments WHERE course_id IN (?))
   ORDER BY matching_course_count DESC, s.last_name"

/-- Endpoint 7 composition. Mirrors
`const courseIds = req.query.courseIds?.split(',') || []` followed by the
`courseIds.length === 0` guard: an absent parameter gives the empty array
and a 400 error; a present parameter is split on commas (an empty string
splits to `[""]`, length 1) and the list is bound twice. -/
def inCoursesIds : Option String → List String
  | none => []
  | some s => splitComma s

def inCoursesCompose (courseIdsq : Option String) :
    Except (Nat × String) (String × List SqlParam) :=
  if (inCoursesIds courseIdsq).length = 0 then
    Except.error (400, "Please provide courseIds as comma-separated values")
  else
    Except.ok (inCoursesSql,
      [SqlParam.list (inCoursesIds courseIdsq), SqlParam.list (inCoursesIds courseIdsq)])

/-- Template of endpoint 8, GET /api/analytics/course-details/:courseId. -/
def courseDetailsSql : String :=
  "SELECT c.course_id, c.course_name, c.credits, c.department,
          COUNT(DISTINCT e.student_id) as total_students,
          COUNT(DISTINCT s.grade) as grade_levels_represented,
          SUM(CASE WHEN e.grade = 'A' THEN 1 ELSE 0 END) as count_A,
          SUM(CASE WHEN e.grade = 'B' THEN 1 ELSE 0 END) as count_B,
          SUM(CASE WHEN e.grade = 'C' THEN 1 ELSE 0 END) as count_C,
          SUM(CASE WHEN e.grade = 'D' THEN 1 ELSE 0 END) as count_D,
          SUM(CASE WHEN e.grade = 'F' THEN 1 ELSE 0 END) as count_F,
          ROUND(SUM(CASE WHEN e.grade = 'A' THEN 1 ELSE 0 END) * 100.0 / COUNT(*), 2) as percent_A,
          ROUND(SUM(CASE WHEN e.grade = 'B' THEN 1 ELSE 0 END) * 100.0 / COUNT(*), 2) as percent_B,
          ROUND(AVG(CASE WHEN e.grade = 'A' THEN 4.0
                         WHEN e.grade = 'B' THEN 3.0
                         WHEN e.grade = 'C' THEN 2.0
                         WHEN e.grade = 'D' THEN 1.0
                         WHEN e.grade = 'F' THEN 0.0 END), 2) as average_gpa,
          MAX(e.enrollment_date) as latest_enrollment,
          (SELECT CONCAT(s2.first_name, ' ', s2.last_name)
           FROM students s2 INNER JOIN enrollments e2 ON s2.student_id = e2.student_id
           WHERE e2.course_id = c.course_id AND e2.grade = 'A' LIMIT 1) as top_student_example
   FROM courses c
   LEFT JOIN enrollments e ON c.course_id = e.course_id
   LEFT JOIN students s ON e.student_id = s.student_id
   WHERE c.course_id = ?
   GROUP BY c.course_id, c.course_name, c.credits, c.department"

/-- Endpoint 8 composition. -/
def courseDetailsCompose (courseId : String) : String × List SqlParam :=
  (courseDetailsSql, [SqlParam.str courseId])

/-- Template of endpoint 9, GET /api/analytics/top-performers. -/
def topPerformersSql : String :=
  "SELECT s.student_id, s.first_name, s.last_name, s.email, s.grade as student_grade,
          COUNT(DISTINCT e.course_id) as courses_completed,
          SUM(c.credits) as total_credits_earned,
          ROUND(SUM(CASE WHEN e.grade = 'A' THEN 4.0 * c.credits
                         WHEN e.grade = 'B' THEN 3.0 * c.credits
                         WHEN e.grade = 'C' THEN 2.0 * c.credits
                         WHEN e.grade = 'D' THEN 1.0 * c.credits
                         WHEN e.grade = 'F' THEN 0.0 * c.credits END) / SUM(c.credits), 2) as weighted_gpa,
          SUM(CASE WHEN e.grade = 'A' THEN 1 ELSE 0 END) as a_count,
          CASE WHEN AVG(CASE WHEN e.grade = 'A' THEN 4.0 WHEN e.grade = 'B' THEN 3.0
                             WHEN e.grade = 'C' THEN 2.0 WHEN e.grade = 'D' THEN 1.0
                             WHEN e.grade = 'F' THEN 0.0 END) >= 3.8 THEN 'Outstanding'
               WHEN AVG(CASE WHEN e.grade = 'A' THEN 4.0 WHEN e.grade = 'B' THEN 3.0
                             WHEN e.grade = 'C' THEN 2.0 WHEN e.grade = 'D' THEN 1.0
                             WHEN e.grade = 'F' THEN 0.0 END) >= 3.5 THEN 'Excellent'
               WHEN AVG(CASE WHEN e.grade = 'A' THEN 4.0 WHEN e.grade = 'B' THEN 3.0
                             WHEN e.grade = 'C' THEN 2.0 WHEN e.grade = 'D' THEN 1.0
                             WHEN e.grade = 'F' THEN 0.0 END) >= 3.0 THEN 'Good'
               ELSE 'Satisfactory' END as performance_rating
   FROM students s
   INNER JOIN enrollments e ON s.student_id = e.student_id
   INNER JOIN courses c ON e.course_id = c.course_id
   GROUP BY s.student_id, s.first_name, s.last_name, s.email, s.grade
   HAVING COUNT(DISTINCT e.course_id) >= ?
      AND ROUND(SUM(CASE WHEN e.grade = 'A' THEN 4.0 * c.credits
                         WHEN e.grade = 'B' THEN 3.0 * c.credits
                         WHEN e.grade = 'C' THEN 2.0 * c.credits
                         WHEN e.grade = 'D' THEN 1.0 * c.credits
                         WHEN e.grade = 'F' THEN 0.0 * c.credits END) / SUM(c.credits), 2) >= ?
   ORDER BY weighted_gpa DESC, courses_completed DESC
   LIMIT 20"

/-- Endpoint 9 composition: both thresholds go through the falsy-default
coercion and are bound in the order (minCourses, minGPA). -/
def topPerformersCompose (minCoursesq minGPAq : Option String) :
    String × List SqlParam :=
  (topPerformersSql,
   [SqlParam.int (minCoursesOf minCoursesq), SqlParam.num (minGPAOf minGPAq)])

/-- Template of endpoint 10, GET /api/analytics/departments. -/
def departmentsSql : String :=
  "SELECT c.department,
          COUNT(DISTINCT c.course_id) as total_courses,
          COUNT(DISTINCT e.student_id) as total_students,
          SUM(c.credits) as total_credits_offered,
          AVG(c.credits) as avg_credits_per_course,
          COUNT(e.enrollment_id) as total_enrollments,
          ROUND(COUNT(e.enrollment_id) * 1.0 / COUNT(DISTINCT c.course_id), 2) as avg_enrollments_per_course,
          ROUND(AVG(CASE WHEN e.grade = 'A' THEN 4.0
                         WHEN e.grade = 'B' THEN 3.0
                         WHEN e.grade = 'C' THEN 2.0
                         WHEN e.grade = 'D' THEN 1.0
                         WHEN e.grade = 'F' THEN 0.0 END), 2) as department_avg_gpa,
          CONCAT('A:', SUM(CASE WHEN e.grade = 'A' THEN 1 ELSE 0 END), ' ',
                 'B:', SUM(CASE WHEN e.grade = 'B' THEN 1 ELSE 0 END), ' ',
                 'C:', SUM(CASE WHEN e.grade = 'C' THEN 1 ELSE 0 END)) as grade_distribution,
          ROUND(SUM(CASE WHEN e.grade IN ('A', 'B', 'C') THEN 1 ELSE 0 END) * 100.0 / COUNT(e.enrollment_id), 2) as success_rate_percent
   FROM courses c
   LEFT JOIN enrollments e ON c.course_id = e.course_id
   GROUP BY c.department
   HAVING COUNT(e.enrollment_id) > 0
   ORDER BY total_enrollments DESC, department_avg_gpa DESC"

/-- Endpoint 10 composition: no request input reaches the query. -/
def departmentsCompose : String × List SqlParam :=
  (departmentsSql, [])

/-! ### Semantics layer: what the store computes for each query.

Joins are nested-loop list products, GROUP BY is key deduplication with
per-key filtering, aggregates use the NULL-skipping helpers above, and
ORDER BY is `sortBy`. Bound string values that MySQL coerces numerically
for comparison against integer columns (grade, studentId, courseId,
courseIds) enter this layer as their coerced numeric values. -/

/-- The enrollments rows matching a student (ON s.student_id = e.student_id). -/
def enrollmentsOfStudent (db : Db) (s : Student) : List Enrollment :=
  db.enrollments.filter (fun e => e.student_id = s.student_id)

/-- The enrollments rows matching a course (ON c.course_id = e.course_id). -/
def enrollmentsOfCourse (db : Db) (c : Course) : List Enrollment :=
  db.enrollments.filter (fun e => e.course_id = c.course_id)

/-- The courses rows matching an enrollment (ON e.course_id = c.course_id). -/
def coursesOf (db : Db) (e : Enrollment) : List Course :=
  db.courses.filter (fun c => c.course_id = e.course_id)

/-- The students rows matching an enrollment (ON e.student_id = s.student_id). -/
def studentsOf (db : Db) (e : Enrollment) : List Student :=
  db.students.filter (fun s => s.student_id = e.student_id)

/-- One student's rows of `enrollments INNER JOIN courses`. -/
def perfRows (db : Db) (s : Student) : List (Enrollment × Course) :=
  (enrollmentsOfStudent db s).flatMap (fun e => (coursesOf db e).map (fun c => (e, c)))

/-- Division with the SQL convention that x / 0 is NULL. -/
def ratDiv0 (a b : Rat) : Option Rat := if b = 0 then none else some (a / b)

/-- SQL comparison `v >= threshold` on a nullable value: NULL compares
as not-true. -/
def optGe (v : Option Rat) (t : Rat) : Bool :=
  match v with
  | none => false
  | some x => decide (t ≤ x)

/-- SQL MAX over a list of naturals (NULL on the empty list). -/
def maxNat? : List Nat → Option Nat
  | [] => none
  | a :: t =>
    match maxNat? t with
    | none => some a
    | some m => some (max a m)

/-- Success envelope `{success: true, count: rows.length, data: rows}`
shared by the count-bearing endpoints. -/
structure Envelope (ρ : Type) where
  success : Bool
  count : Nat
  data : List ρ

/-- Output row of endpoint 1 (students by grade). -/
structure SbgRow where
  student_id : Nat
  first_name : String
  last_name : String
  email : String
  grade : Int
  enrollment_date : Nat
deriving DecidableEq, Repr

/-- ORDER BY last_name, first_name. -/
def sbgLe (a b : SbgRow) : Bool :=
  decide (a.last_name < b.last_name) ||
    (decide (a.last_name = b.last_name) && decide (a.first_name ≤ b.first_name))

/-- Endpoint 1 result set: WHERE grade = ?, ORDER BY last_name, first_name. -/
def studentsByGradeRows (db : Db) (grade : Int) : List SbgRow :=
  sortBy sbgLe ((db.students.filter (fun s => s.grade = grade)).map (fun s =>
    { student_id := s.student_id, first_name := s.first_name, last_name := s.last_name,
      email := s.email, grade := s.grade, enrollment_date := s.enrollment_date }))

/-- Endpoint 1 handler: rows wrapped in the success envelope. -/
def studentsByGradeH (db : Db) (grade : Int) : Envelope SbgRow :=
  let rows := studentsByGradeRows db grade
  { success := true, count := rows.length, data := rows }

/-- Output row of endpoint 2 (student enrollments). -/
structure SeRow where
  student_id : Nat
  first_name : String
  last_name : String
  course_id : Nat
  course_name : String
  credits : Nat
  enrollment_date : Nat
  grade : Option Letter
deriving DecidableEq, Repr

/-- Endpoint 2 result set: the inner join restricted to one student,
ORDER BY e.enrollment_date DESC. -/
def studentEnrollmentsRows (db : Db) (sid : Nat) : List SeRow :=
  sortBy (fun a b => decide (b.enrollment_date ≤ a.enrollment_date))
    ((db.students.filter (fun s => s.student_id = sid)).flatMap (fun s =>
      (perfRows db s).map (fun ec =>
        { student_id := s.student_id, first_name := s.first_name, last_name := s.last_name,
          course_id := ec.2.course_id, course_name := ec.2.course_name,
          credits := ec.2.credits, enrollment_date := ec.1.enrollment_date,
          grade := ec.1.grade })))

/-- Endpoint 2 handler. -/
def studentEnrollmentsH (db : Db) (sid : Nat) : Envelope SeRow :=
  let rows := studentEnrollmentsRows db sid
  { success := true, count := rows.length, data := rows }

/-- Output row of endpoint 3 (all students with enrollments). -/
structure AweRow where
  student_id : Nat
  first_name : String
  last_name : String
  grade : Int
  total_enrollments : Nat
  courses : Option String
deriving DecidableEq, Repr

/-- GROUP BY key of endpoint 3: (student_id, first_name, last_name, grade). -/
def aweKey (s : Student) : Nat × String × String × Int :=
  (s.student_id, s.first_name, s.last_name, s.grade)

/-- One student's rows of the double LEFT JOIN of endpoint 3: a student
with no enrollments contributes one all-NULL row; an enrollment with no
matching course contributes a row with a NULL course. -/
def aweJoinedOfStudent (db : Db) (s : Student) : List (Option (Enrollment × Option Course)) :=
  match enrollmentsOfStudent db s with
  | [] => [none]
  | es => es.flatMap (fun e =>
      match coursesOf db e with
      | [] => [some (e, none)]
      | cs => cs.map (fun c => some (e, some c)))

/-- Endpoint 3 aggregate for one GROUP BY key:
COUNT(e.enrollment_id) counts join rows with a non-NULL enrollment;
GROUP_CONCAT(c.course_name) skips NULL course names. -/
def aweAgg (db : Db) (k : Nat × String × String × Int) : AweRow :=
  let group := db.students.filter (fun s => aweKey s = k)
  let joined := group.flatMap (aweJoinedOfStudent db)
  { student_id := k.1, first_name := k.2.1, last_name := k.2.2.1, grade := k.2.2.2,
    total_enrollments := joined.countP (fun r => r.isSome),
    courses := groupConcat ", " (joined.filterMap (fun r =>
      r.bind (fun p => p.2.map (fun c => c.course_name)))) }

/-- Endpoint 3 result set: one row per distinct key, ORDER BY s.last_name. -/
def allWithEnrollmentsRows (db : Db) : List AweRow :=
  sortBy (fun a b => decide (a.last_name ≤ b.last_name))
    ((dedupKeys (db.students.map aweKey)).map (aweAgg db))

/-- Endpoint 3 handler. -/
def allWithEnrollmentsH (db : Db) : Envelope AweRow :=
  let rows := allWithEnrollmentsRows db
  { success := true, count := rows.length, data := rows }

/-- Output row of endpoint 5 (popular courses). -/
structure PopRow where
  course_id : Nat
  course_name : String
  credits : Nat
  enrollment_count : Nat
  average_gpa : Option Rat
deriving DecidableEq, Repr

/-- GROUP BY key of endpoint 5: (course_id, course_name, credits). -/
def popKey (c : Course) : Nat × String × Nat := (c.course_id, c.course_name, c.credits)

/-- HAVING COUNT(e.enrollment_id) >= ? where the bound value may be NaN
(a failed parseInt): a comparison against NaN is not true. -/
def popHaving (minE : Option Int) (n : Nat) : Bool :=
  match minE with
  | none => false
  | some i => decide (i ≤ (n : Int))

/-- Endpoint 5 aggregate for one key: the INNER JOIN keeps only courses
with at least one enrollment; average_gpa uses the ELSE-0.0 CASE mapping,
so NULL (and F) grades enter the average as 0.0. -/
def popAgg (db : Db) (k : Nat × String × Nat) : PopRow :=
  let group := db.courses.filter (fun c => popKey c = k)
  let es := group.flatMap (enrollmentsOfCourse db)
  { course_id := k.1, course_name := k.2.1, credits := k.2.2,
    enrollment_count := es.length,
    average_gpa := gpaElse0Avg (es.map (fun e => e.grade)) }

/-- ORDER BY enrollment_count DESC, average_gpa DESC. -/
def popLe (a b : PopRow) : Bool :=
  decide (b.enrollment_count < a.enrollment_count) ||
    (decide (a.enrollment_count = b.enrollment_count) &&
      decide (b.average_gpa.getD 0 ≤ a.average_gpa.getD 0))

/-- Endpoint 5 result set. -/
def popularCoursesRows (db : Db) (minE : Option Int) : List PopRow :=
  sortBy popLe
    (((dedupKeys ((db.courses.filter
        (fun c => !(enrollmentsOfCourse db c).isEmpty)).map popKey)).map (popAgg db)).filter
      (fun r => popHaving minE r.enrollment_count))

/-- Endpoint 5 handler. -/
def popularCoursesH (db : Db) (minE : Option Int) : Envelope PopRow :=
  let rows := popularCoursesRows db minE
  { success := true, count := rows.length, data := rows }

/-- Output row of endpoint 6 (student performance). -/
structure SpRow where
  student_id : Nat
  first_name : String
  last_name : String
  student_grade : Int
  courses_taken : Nat
  total_credits : Nat
  gpa : Option Rat
  course_history : Option String
deriving DecidableEq, Repr

/-- GROUP BY key of endpoint 6: (student_id, first_name, last_name, grade). -/
def spKey (s : Student) : Nat × String × String × Int :=
  (s.student_id, s.first_name, s.last_name, s.grade)

/-- Rendering of a letter grade inside CONCAT. -/
def letterStr : Letter → String
  | Letter.A => "A"
  | Letter.B => "B"
  | Letter.C => "C"
  | Letter.D => "D"
  | Letter.F => "F"

/-- Endpoint 6 aggregate for one key over the WHERE-filtered student list
`base`: gpa uses the no-ELSE CASE mapping (NULL grades skipped);
course_history concatenates CONCAT(name, ' (', grade, ')') ordered by
enrollment date descending, and CONCAT of a NULL grade is NULL, which
GROUP_CONCAT skips. -/
def spAgg (db : Db) (base : List Student) (k : Nat × String × String × Int) : SpRow :=
  let group := base.filter (fun s => spKey s = k)
  let rows := group.flatMap (perfRows db)
  let sorted := sortBy (fun a b => decide (b.1.enrollment_date ≤ a.1.enrollment_date)) rows
  { student_id := k.1, first_name := k.2.1, last_name := k.2.2.1, student_grade := k.2.2.2,
    courses_taken := rows.length,
    total_credits := (rows.map (fun ec => ec.2.credits)).sum,
    gpa := gpaNoElseAvg (rows.map (fun ec => ec.1.grade)),
    course_history := groupConcat " | " (sorted.filterMap (fun ec =>
      ec.1.grade.map (fun g => ec.2.course_name ++ " (" ++ letterStr g ++ ")"))) }

/-- ORDER BY gpa DESC, total_credits DESC. -/
def spLe (a b : SpRow) : Bool :=
  decide (b.gpa.getD 0 < a.gpa.getD 0) ||
    (decide (a.gpa.getD 0 = b.gpa.getD 0) && decide (b.total_credits ≤ a.total_credits))

/-- Endpoint 6 result set: WHERE 1=1 [AND s.grade = ?], GROUP BY student,
HAVING gpa >= minGPA (NULL gpa never passes), ORDER BY. `gradeFilter` is
the store-coerced numeric value of the bound grade string, `none` when the
predicate was not spliced. -/
def studentPerformanceRows (db : Db) (minGPA : Rat) (gradeFilter : Option Int) : List SpRow :=
  let base :=
    match gradeFilter with
    | none => db.students
    | some g => db.students.filter (fun s => s.grade = g)
  sortBy spLe
    (((dedupKeys ((base.filter (fun s => !(perfRows db s).isEmpty)).map spKey)).map
        (spAgg db base)).filter (fun r => optGe r.gpa minGPA))

/-- Endpoint 6 success envelope, including the echoed filters. -/
structure SpResponse where
  success : Bool
  minGPA : Rat
  gradeFilter : Option Int
  count : Nat
  data : List SpRow

/-- Endpoint 6 handler. -/
def studentPerformanceH (db : Db) (minGPA : Rat) (gradeFilter : Option Int) : SpResponse :=
  let rows := studentPerformanceRows db minGPA gradeFilter
  { success := true, minGPA := minGPA, gradeFilter := gradeFilter,
    count := rows.length, data := rows }

/-- Output row of endpoint 7 (students in courses). -/
structure IcRow where
  student_id : Nat
  first_name : String
  last_name : String
  email : String
  grade : Int
  matching_course_count : Nat
deriving DecidableEq, Repr

/-- The correlated subquery of endpoint 7: COUNT(*) of the student's
enrollments whose course id is in the bound list. -/
def matchingCourseCount (db : Db) (ids : List Int) (s : Student) : Nat :=
  (db.enrollments.filter (fun e =>
    e.student_id = s.student_id ∧ (e.course_id : Int) ∈ ids)).length

/-- ORDER BY matching_course_count DESC, s.last_name. -/
def icLe (a b : IcRow) : Bool :=
  decide (b.matching_course_count < a.matching_course_count) ||
    (decide (a.matching_course_count = b.matching_course_count) &&
      decide (a.last_name ≤ b.last_name))

/-- Endpoint 7 result set: DISTINCT rows of students having at least one
enrollment in the id set, annotated with the subquery count. `ids` holds
the store-coerced numeric values of the bound string list. -/
def inCoursesRows (db : Db) (ids : List Int) : List IcRow :=
  sortBy icLe
    (dedupKeys ((db.students.filter (fun s =>
        db.enrollments.any (fun e =>
          decide (e.student_id = s.student_id) && decide ((e.course_id : Int) ∈ ids)))).map
      (fun s =>
        { student_id := s.student_id, first_name := s.first_name, last_name := s.last_name,
          email := s.email, grade := s.grade,
          matching_course_count := matchingCourseCount db ids s })))

/-- Endpoint 7 handler (success path, after the composition-layer guard). -/
def inCoursesH (db : Db) (ids : List Int) : Envelope IcRow :=
  let rows := inCoursesRows db ids
  { success := true, count := rows.length, data := rows }

/-- Output row of endpoint 8 (course details). -/
structure CdRow where
  course_id : Nat
  course_name : String
  credits : Nat
  department : String
  total_students : Nat
  grade_levels_represented : Nat
  count_A : Nat
  count_B : Nat
  count_C : Nat
  count_D : Nat
  count_F : Nat
  percent_A : Option Rat
  percent_B : Option Rat
  average_gpa : Option Rat
  latest_enrollment : Option Nat
  top_student_example : Option String
deriving DecidableEq, Repr

/-- GROUP BY key of endpoint 8. -/
def cdKey (c : Course) : Nat × String × Nat × String :=
  (c.course_id, c.course_name, c.credits, c.department)

/-- One course's rows of the double LEFT JOIN of endpoint 8: a course
with no enrollments contributes one all-NULL row; an enrollment with no
matching student contributes a row with a NULL student. -/
def cdJoinedOfCourse (db : Db) (c : Course) : List (Option (Enrollment × Option Student)) :=
  match enrollmentsOfCourse db c with
  | [] => [none]
  | es => es.flatMap (fun e =>
      match studentsOf db e with
      | [] => [some (e, none)]
      | ss => ss.map (fun s => some (e, some s)))

/-- The scalar subquery of endpoint 8: an arbitrary (first, LIMIT 1)
student holding an A in the course, as "first last", NULL if none. -/
def topStudentExample (db : Db) (cid : Nat) : Option String :=
  (db.students.flatMap (fun s2 =>
    (db.enrollments.filter (fun e2 =>
      e2.student_id = s2.student_id ∧ e2.course_id = cid ∧ e2.grade = some Letter.A)).map
      (fun _ => s2.first_name ++ " " ++ s2.last_name))).head?

/-- The nullable letter grade of a (possibly NULL) joined enrollment. -/
def cdGrade (r : Option (Enrollment × Option Student)) : Option Letter :=
  r.bind (fun p => p.1.grade)

/-- Endpoint 8 aggregate for one key: grade counts use CASE ... ELSE 0
(a NULL grade counts as 0, not NULL); percentages divide by COUNT(*);
average_gpa uses the no-ELSE mapping and is NULL for a course with no
graded enrollment. -/
def cdAgg (db : Db) (k : Nat × String × Nat × String) : CdRow :=
  let group := db.courses.filter (fun c => cdKey c = k)
  let rs := group.flatMap (cdJoinedOfCourse db)
  let countOf := fun (l : Letter) => rs.countP (fun r => cdGrade r = some l)
  { course_id := k.1, course_name := k.2.1, credits := k.2.2.1, department := k.2.2.2,
    total_students := (dedupKeys (rs.filterMap (fun r => r.map (fun p => p.1.student_id)))).length,
    grade_levels_represented :=
      (dedupKeys (rs.filterMap (fun r => r.bind (fun p => p.2.map (fun s => s.grade))))).length,
    count_A := countOf Letter.A, count_B := countOf Letter.B, count_C := countOf Letter.C,
    count_D := countOf Letter.D, count_F := countOf Letter.F,
    percent_A := (ratDiv0 ((countOf Letter.A : Rat) * 100) (rs.length : Rat)).map mysqlRound2,
    percent_B := (ratDiv0 ((countOf Letter.B : Rat) * 100) (rs.length : Rat)).map mysqlRound2,
    average_gpa := (gpaNoElseAvg (rs.map cdGrade)).map mysqlRound2,
    latest_enrollment := maxNat? (rs.filterMap (fun r => r.map (fun p => p.1.enrollment_date))),
    top_student_example := topStudentExample db k.1 }

/-- Endpoint 8 result set: WHERE c.course_id = ?, GROUP BY the course key. -/
def courseDetailsRows (db : Db) (cid : Nat) : List CdRow :=
  (dedupKeys ((db.courses.filter (fun c => c.course_id = cid)).map cdKey)).map (cdAgg db)

/-- Endpoint 8 handler: `rows.length === 0` yields the 404 error response
(success:false, no data field); otherwise `data: rows[0]`. -/
def courseDetailsH (db : Db) (cid : Nat) : Except (Nat × String) CdRow :=
  match courseDetailsRows db cid with
  | [] => Except.error (404, "Course not found")
  | r :: _ => Except.ok r

/-- Output row of endpoint 9 (top performers). -/
structure TpRow where
  student_id : Nat
  first_name : String
  last_name : String
  email : String
  student_grade : Int
  courses_completed : Nat
  total_credits_earned : Nat
  weighted_gpa : Option Rat
  a_count : Nat
  performance_rating : String
deriving DecidableEq, Repr

/-- GROUP BY key of endpoint 9: (student_id, first_name, last_name,
email, grade). -/
def tpKey (s : Student) : Nat × String × String × String × Int :=
  (s.student_id, s.first_name, s.last_name, s.email, s.grade)

/-- The weighted-GPA expression of endpoint 9 as a function of the
(grade, credits) pairs of a student's join rows:
ROUND(SUM(CASE grade point * credits END) / SUM(credits), 2). The no-ELSE
CASE makes a NULL-graded row contribute NULL (skipped) to the numerator
while its credits still enter the denominator; a NULL numerator or a zero
denominator yields NULL. -/
def weightedGpaGC (l : List (Option Letter × Nat)) : Option Rat :=
  match sqlSum (l.map (fun p => (gradePointsNoElse p.1).map (fun q => q * (p.2 : Rat)))),
        sqlSum (l.map (fun p => some ((p.2 : Nat) : Rat))) with
  | some n, some d => (ratDiv0 n d).map mysqlRound2
  | _, _ => none

/-- The weighted-GPA aggregate over a student's join rows. -/
def weightedGpa (rows : List (Enrollment × Course)) : Option Rat :=
  weightedGpaGC (rows.map (fun ec => (ec.1.grade, ec.2.credits)))

/-- The performance_rating CASE of endpoint 9, driven by the unweighted
no-ELSE average: a NULL average satisfies no branch and falls to the ELSE
value Satisfactory. -/
def performanceRating (gs : List (Option Letter)) : String :=
  match gpaNoElseAvg gs with
  | none => "Satisfactory"
  | some a =>
    if 19/5 ≤ a then "Outstanding"
    else if 7/2 ≤ a then "Excellent"
    else if 3 ≤ a then "Good"
    else "Satisfactory"

/-- Endpoint 9 aggregate for one key. -/
def tpAgg (db : Db) (k : Nat × String × String × String × Int) : TpRow :=
  let group := db.students.filter (fun s => tpKey s = k)
  let rows := group.flatMap (perfRows db)
  { student_id := k.1, first_name := k.2.1, last_name := k.2.2.1, email := k.2.2.2.1,
    student_grade := k.2.2.2.2,
    courses_completed := (dedupKeys (rows.map (fun ec => ec.1.course_id))).length,
    total_credits_earned := (rows.map (fun ec => ec.2.credits)).sum,
    weighted_gpa := weightedGpa rows,
    a_count := rows.countP (fun ec => ec.1.grade = some Letter.A),
    performance_rating := performanceRating (rows.map (fun ec => ec.1.grade)) }

/-- The grouped (pre-HAVING) result set of endpoint 9: one aggregate row
per distinct key of a student with at least one join row. -/
def tpAggRows (db : Db) : List TpRow :=
  (dedupKeys ((db.students.filter (fun s => !(perfRows db s).isEmpty)).map tpKey)).map
    (tpAgg db)

/-- HAVING COUNT(DISTINCT e.course_id) >= ? AND ROUND(...) >= ?: a NULL
weighted GPA never passes. -/
def tpHaving (mc : Int) (mg : Rat) (r : TpRow) : Bool :=
  decide (mc ≤ (r.courses_completed : Int)) && optGe r.weighted_gpa mg

/-- ORDER BY weighted_gpa DESC, courses_completed DESC. -/
def tpLe (a b : TpRow) : Bool :=
  decide (b.weighted_gpa.getD 0 < a.weighted_gpa.getD 0) ||
    (decide (a.weighted_gpa.getD 0 = b.weighted_gpa.getD 0) &&
      decide (b.courses_completed ≤ a.courses_completed))

/-- Endpoint 9 result set: HAVING, ORDER BY, LIMIT 20. -/
def topPerformersRows (db : Db) (mc : Int) (mg : Rat) : List TpRow :=
  (sortBy tpLe ((tpAggRows db).filter (tpHaving mc mg))).take 20

/-- Endpoint 9 success envelope, including the echoed criteria. -/
structure TpResponse where
  success : Bool
  minCourses : Int
  minGPA : Rat
  count : Nat
  data : List TpRow

/-- Endpoint 9 handler. -/
def topPerformersH (db : Db) (mc : Int) (mg : Rat) : TpResponse :=
  let rows := topPerformersRows db mc mg
  { success := true, minCourses := mc, minGPA := mg, count := rows.length, data := rows }

/-- Output row of endpoint 10 (department analytics). -/
structure DeptRow where
  department : String
  total_courses : Nat
  total_students : Nat
  total_credits_offered : Nat
  avg_credits_per_course : Option Rat
  total_enrollments : Nat
  avg_enrollments_per_course : Option Rat
  department_avg_gpa : Option Rat
  grade_distribution : String
  success_rate_percent : Option Rat
deriving DecidableEq, Repr

/-- One course's rows of the LEFT JOIN of endpoint 10. -/
def deptJoinedOfCourse (db : Db) (c : Course) : List (Course × Option Enrollment) :=
  match enrollmentsOfCourse db c with
  | [] => [(c, none)]
  | es => es.map (fun e => (c, some e))

/-- Endpoint 10 aggregate for one department. SUM(c.credits) and
AVG(c.credits) range over join rows, so a course's credits are counted
once per enrollment (once total if it has none) — faithful to the query,
not to the per-course reading. -/
def deptAgg (db : Db) (d : String) : DeptRow :=
  let rs := (db.courses.filter (fun c => c.department = d)).flatMap (deptJoinedOfCourse db)
  let gradeOf := fun (p : Course × Option Enrollment) => p.2.bind (fun e => e.grade)
  let countOf := fun (l : Letter) => rs.countP (fun p => gradeOf p = some l)
  let totalCourses := (dedupKeys (rs.map (fun p => p.1.course_id))).length
  let totalEnrollments := rs.countP (fun p => p.2.isSome)
  { department := d,
    total_courses := totalCourses,
    total_students := (dedupKeys (rs.filterMap (fun p => p.2.map (fun e => e.student_id)))).length,
    total_credits_offered := (rs.map (fun p => p.1.credits)).sum,
    avg_credits_per_course := sqlAvg (rs.map (fun p => some ((p.1.credits : Rat)))),
    total_enrollments := totalEnrollments,
    avg_enrollments_per_course :=
      (ratDiv0 ((totalEnrollments : Rat) * 1) (totalCourses : Rat)).map mysqlRound2,
    department_avg_gpa := (gpaNoElseAvg (rs.map gradeOf)).map mysqlRound2,
    grade_distribution :=
      "A:" ++ toString (countOf Letter.A) ++ " " ++
      "B:" ++ toString (countOf Letter.B) ++ " " ++
      "C:" ++ toString (countOf Letter.C),
    success_rate_percent :=
      (ratDiv0 ((rs.countP (fun p =>
          gradeOf p = some Letter.A ∨ gradeOf p = some Letter.B ∨ gradeOf p = some Letter.C) : Rat) * 100)
        (totalEnrollments : Rat)).map mysqlRound2 }

/-- ORDER BY total_enrollments DESC, department_avg_gpa DESC. -/
def deptLe (a b : DeptRow) : Bool :=
  decide (b.total_enrollments < a.total_enrollments) ||
    (decide (a.total_enrollments = b.total_enrollments) &&
      decide (b.department_avg_gpa.getD 0 ≤ a.department_avg_gpa.getD 0))

/-- Endpoint 10 result set: GROUP BY c.department over all courses,
HAVING COUNT(e.enrollment_id) > 0. -/
def departmentsRows (db : Db) : List DeptRow :=
  sortBy deptLe
    (((dedupKeys (db.courses.map (fun c => c.department))).map (deptAgg db)).filter
      (fun r => 0 < r.total_enrollments))

/-- Endpoint 10 handler. -/
def departmentsH (db : Db) : Envelope DeptRow :=
  let rows := departmentsRows db
  { success := true, count := rows.length, data := rows }

/-! ### Concrete database states used to instantiate the results -/

/-- Database exhibiting the popular-courses NULL-grade behaviour: one
course, one A-graded and one NULL-graded (in-progress) enrollment. -/
def c4CexDb : Db :=
  { students := [],
    courses := [{ course_id := 1, course_name := "Algebra", department := "Math", credits := 3 }],
    enrollments :=
      [{ enrollment_id := 1, student_id := 1, course_id := 1, enrollment_date := 1,
         grade := some Letter.A },
       { enrollment_id := 2, student_id := 2, course_id := 1, enrollment_date := 2,
         grade := none }] }

/-- Witness database for the positive claims: Ada has an A in the
4-credit Algebra and a B in the 3-credit Biology; Bob has no enrollments;
Chemistry has no enrollments. -/
def demoDb : Db :=
  { students :=
      [{ student_id := 1, first_name := "Ada", last_name := "Lovelace",
         email := "ada@example.com", grade := 10, enrollment_date := 1 },
       { student_id := 2, first_name := "Bob", last_name := "Ray",
         email := "bob@example.com", grade := 9, enrollment_date := 2 }],
    courses :=
      [{ course_id := 1, course_name := "Algebra", department := "Math", credits := 4 },
       { course_id := 2, course_name := "Biology", department := "Science", credits := 3 },
       { course_id := 3, course_name := "Chemistry", department := "Science", credits := 2 }],
    enrollments :=
      [{ enrollment_id := 1, student_id := 1, course_id := 1, enrollment_date := 3,
         grade := some Letter.A },
       { enrollment_id := 2, student_id := 1, course_id := 2, enrollment_date := 4,
         grade := some Letter.B }] }

/-- The Ada row of `demoDb`. -/
def demoAda : Student :=
  { student_id := 1, first_name := "Ada", last_name := "Lovelace",
    email := "ada@example.com", grade := 10, enrollment_date := 1 }

/-- The top-performers output row of Ada in `demoDb`: 2 distinct courses,
7 credits, weighted GPA round(25/7, 2) = 3.57, unweighted average 3.5
giving the Excellent tier. -/
def demoTpRow : TpRow :=
  { student_id := 1, first_name := "Ada", last_name := "Lovelace",
    email := "ada@example.com", student_grade := 10, courses_completed := 2,
    total_credits_earned := 7, weighted_gpa := some (357/100), a_count := 1,
    performance_rating := "Excellent" }

end SchoolApp

namespace SchoolApp

/-! ### List-level lemmas about the ORDER BY and GROUP BY machinery -/

theorem length_insertBy (le : α → α → Bool) (a : α) (l : List α) :
    (insertBy le a l).length = l.length + 1 := by
  induction l with
  | nil => rfl
  | cons b t ih =>
    simp only [insertBy]
    split <;> simp [ih]

theorem length_sortBy (le : α → α → Bool) (l : List α) :
    (sortBy le l).length = l.length := by
  induction l with
  | nil => rfl
  | cons a t ih => simp [sortBy, length_insertBy, ih]

theorem mem_insertBy (le : α → α → Bool) (a b : α) (l : List α) :
    b ∈ insertBy le a l ↔ b = a ∨ b ∈ l := by
  induction l with
  | nil => simp [insertBy]
  | cons c t ih =>
    simp only [insertBy]
    split
    · simp
    · simp only [List.mem_cons, ih]
      tauto

theorem mem_sortBy (le : α → α → Bool) (a : α) (l : List α) :
    a ∈ sortBy le l ↔ a ∈ l := by
  induction l with
  | nil => simp [sortBy]
  | cons b t ih =>
    simp [sortBy, mem_insertBy, ih]

theorem dedupAcc_of_nodup [DecidableEq α] (l : List α) :
    ∀ seen, l.Nodup → (∀ a ∈ l, a ∉ seen) → dedupAcc l seen = l := by
  induction l with
  | nil => intro seen _ _; rfl
  | cons a t ih =>
    intro seen h hs
    have ha : a ∉ seen := hs a (List.mem_cons_self a t)
    simp only [dedupAcc, if_neg ha]
    have ht : t.Nodup := (List.nodup_cons.mp h).2
    have hat : a ∉ t := (List.nodup_cons.mp h).1
    congr 1
    refine ih (a :: seen) ht (fun b hb hbs => ?_)
    rcases List.mem_cons.mp hbs with rfl | hbseen
    · exact hat hb
    · exact hs b (List.mem_cons_of_mem a hb) hbseen

theorem dedupKeys_of_nodup [DecidableEq α] (l : List α) (h : l.Nodup) :
    dedupKeys l = l :=
  dedupAcc_of_nodup l [] h (fun a _ => List.not_mem_nil a)

theorem mem_dedupAcc [DecidableEq α] (a : α) (l : List α) :
    ∀ seen, (a ∈ dedupAcc l seen ↔ a ∈ l ∧ a ∉ seen) := by
  induction l with
  | nil => intro seen; simp [dedupAcc]
  | cons b t ih =>
    intro seen
    simp only [dedupAcc]
    split
    · rename_i hb
      rw [ih seen]
      simp only [List.mem_cons]
      constructor
      · rintro ⟨hat, hs⟩
        exact ⟨Or.inr hat, hs⟩
      · rintro ⟨rfl | h', hs⟩
        · exact absurd hb hs
        · exact ⟨h', hs⟩
    · rename_i hb
      simp only [List.mem_cons, ih (b :: seen), List.mem_cons]
      constructor
      · rintro (rfl | ⟨hat, hs⟩)
        · exact ⟨Or.inl rfl, fun h' => hb h'⟩
        · exact ⟨Or.inr hat, fun h' => hs (Or.inr h')⟩
      · rintro ⟨rfl | hat, hs⟩
        · exact Or.inl rfl
        · by_cases hab : a = b
          · exact Or.inl hab
          · exact Or.inr ⟨hat, fun h' => (by rcases h' with h' | h' <;> [exact hab h'; exact hs h'])⟩

theorem mem_dedupKeys [DecidableEq α] (a : α) (l : List α) :
    a ∈ dedupKeys l ↔ a ∈ l := by
  simp [dedupKeys, mem_dedupAcc]

/-- In a list whose `g`-projections are pairwise distinct, filtering by
key equality with a member `a` whose key determines its `g`-projection
yields exactly `[a]`. This is the bridge from GROUP BY over a primary-key
bearing key tuple to per-row aggregation. -/
theorem filter_key_singleton {α β γ : Type} [DecidableEq γ]
    (g : α → β) (k : α → γ) (l : List α) (a : α)
    (hnd : (l.map g).Nodup) (ha : a ∈ l)
    (hk : ∀ x ∈ l, k x = k a → g x = g a) :
    l.filter (fun x => k x = k a) = [a] := by
  induction l with
  | nil => cases ha
  | cons b t ih =>
    have hnd' : (t.map g).Nodup := (List.nodup_cons.mp (by simpa using hnd)).2
    have hgb : g b ∉ t.map g := (List.nodup_cons.mp (by simpa using hnd)).1
    rcases List.mem_cons.mp ha with rfl | hat
    · simp only [List.filter_cons, decide_eq_true_eq, if_pos rfl]
      have : t.filter (fun x => k x = k a) = [] := by
        refine List.filter_eq_nil_iff.mpr (fun x hx => ?_)
        simp only [decide_eq_true_eq]
        intro hkx
        have : g x = g a := hk x (List.mem_cons_of_mem a hx) hkx
        exact hgb (this ▸ List.mem_map_of_mem g hx)
      simp [this]
    · have hkb : ¬ (k b = k a) := by
        intro hkb
        have : g b = g a := hk b (List.mem_cons_self b t) hkb
        exact hgb (this ▸ List.mem_map_of_mem g hat)
      simp only [List.filter_cons, decide_eq_true_eq, if_neg hkb]
      exact ih hnd' hat (fun x hx => hk x (List.mem_cons_of_mem b hx))

/-- C9: in the top-performers handler, a minCourses value parsing to 0 or
NaN is replaced by the default 3, a minGPA value parsing to 0 or NaN is
replaced by the default 3.5, no caller can obtain a zero threshold, and
`?minGPA=0` behaves exactly like omitting minGPA. -/
theorem c9_top_performers_falsy_defaults :
    (∀ q : Option String,
      (parseIntJS q = some 0 → minCoursesOf q = 3) ∧
      (parseIntJS q = none → minCoursesOf q = 3) ∧
      minCoursesOf q ≠ 0 ∧
      (parseFloatJS q = some 0 → minGPAOf q = 7/2) ∧
      (parseFloatJS q = none → minGPAOf q = 7/2) ∧
      minGPAOf q ≠ 0) ∧
    minGPAOf (some "0") = minGPAOf none := by
  constructor
  · intro q
    refine ⟨?_, ?_, ?_, ?_, ?_, ?_⟩
    · intro h; simp [minCoursesOf, h, jsOrInt]
    · intro h; simp [minCoursesOf, h, jsOrInt]
    · unfold minCoursesOf jsOrInt
      rcases parseIntJS q with _ | n
      · decide
      · by_cases hn : n = 0 <;> simp [hn]
    · intro h; simp [minGPAOf, h, jsOrRat]
    · intro h; simp [minGPAOf, h, jsOrRat]
    · unfold minGPAOf jsOrRat
      rcases parseFloatJS q with _ | x
      · norm_num
      · by_cases hx : x = 0 <;> simp [hx]
  · with_unfolding_all rfl

/-- Witness for C9 at concrete inputs: "0" parses to 0 and the thresholds
default as the theorem states. -/
theorem c9_top_performers_falsy_defaults_witness :
    parseIntJS (some "0") = some 0 ∧ minCoursesOf (some "0") = 3 := by
  refine ⟨by decide, ?_⟩
  exact (c9_top_performers_falsy_defaults.1 (some "0")).1 (by decide)

/-- C1 counterexample: two student-performance requests that differ only
in the value of the grade query parameter (the empty string versus "A",
both supplied) produce different query templates, because the splice is
governed by JavaScript truthiness and the empty string is falsy. -/
theorem c1_counterexample_empty_grade_changes_template :
    (studentPerformanceCompose none (some "")).1 ≠
      (studentPerformanceCompose none (some "A")).1 := by
  decide

/-- C1 (amended): for every endpoint, the query text sent to the store is
independent of all user-supplied parameter values; the one template
variation is the grade predicate fragment of student-performance, whose
presence depends only on the JavaScript truthiness of the grade parameter
(supplied with a non-empty value), never on any further content of any
value. Endpoints 3, 4 and 10 take no input, so their templates are
constants by construction. -/
theorem c1_query_text_value_independent :
    (∀ g g', (studentsByGradeCompose g).1 = (studentsByGradeCompose g').1) ∧
    (∀ s s', (studentEnrollmentsCompose s).1 = (studentEnrollmentsCompose s').1) ∧
    (∀ m m', (popularCoursesCompose m).1 = (popularCoursesCompose m').1) ∧
    (∀ a b c d, truthy b = truthy d →
      (studentPerformanceCompose a b).1 = (studentPerformanceCompose c d).1) ∧
    (∀ s s' q q', inCoursesCompose s = Except.ok q → inCoursesCompose s' = Except.ok q' →
      q.1 = q'.1) ∧
    (∀ c c', (courseDetailsCompose c).1 = (courseDetailsCompose c').1) ∧
    (∀ a b c d, (topPerformersCompose a b).1 = (topPerformersCompose c d).1) := by
  refine ⟨fun _ _ => rfl, fun _ _ => rfl, fun _ _ => rfl, ?_, ?_, fun _ _ => rfl,
    fun _ _ _ _ => rfl⟩
  · intro a b c d h
    simp only [studentPerformanceCompose, h]
  · intro s s' q q' hq hq'
    have e1 : q.1 = inCoursesSql := by
      unfold inCoursesCompose at hq
      split at hq
      · cases hq
      · cases hq
        rfl
    have e2 : q'.1 = inCoursesSql := by
      unfold inCoursesCompose at hq'
      split at hq'
      · cases hq'
      · cases hq'
        rfl
    rw [e1, e2]

/-- Witness for C1 at concrete inputs: two in-courses requests with
different non-empty id lists compose the same template, and two
student-performance requests with agreeing grade truthiness do too. -/
theorem c1_query_text_value_independent_witness :
    inCoursesCompose (some "1,2") =
      Except.ok (inCoursesSql, [SqlParam.list ["1", "2"], SqlParam.list ["1", "2"]]) ∧
    truthy (some "10") = truthy (some "11") ∧
    (studentPerformanceCompose none (some "10")).1 =
      (studentPerformanceCompose (some "3") (some "11")).1 := by
  refine ⟨rfl, by decide, ?_⟩
  exact c1_query_text_value_independent.2.2.2.1 none (some "10") (some "3") (some "11")
    (by decide)

/-- C2 counterexample: with the grade parameter supplied as the empty
string, the query runs with exactly one bound parameter and no grade
predicate, although the claim requires two bound parameters whenever the
parameter is supplied. -/
theorem c2_counterexample_empty_grade_one_param :
    (∃ s, (some "" : Option String) = some s) ∧
    (studentPerformanceCompose none (some "")).2.length = 1 := by
  exact ⟨⟨"", rfl⟩, by decide⟩

/-- C2 (amended): in the student-performance composition, an absent or
empty (falsy) grade parameter yields the base template, whose single
placeholder is bound to exactly [minGPA]; a non-empty grade parameter
splices the fragment `AND s.grade = ?` between the prefix (0 placeholders)
and the suffix (1 placeholder, the HAVING threshold), and binds exactly
[grade, minGPA] — matching the placeholder order of the composed text. -/
theorem c2_sp_parameter_binding (m g : Option String) :
    (truthy g = false →
      (studentPerformanceCompose m g).1 = spSqlPrefix ++ "" ++ spSqlSuffix ∧
      (studentPerformanceCompose m g).2 = [SqlParam.num (spMinGPAOf m)] ∧
      placeholderCount (studentPerformanceCompose m g).1 = 1) ∧
    (∀ s, g = some s → s ≠ "" →
      (studentPerformanceCompose m g).1 =
        spSqlPrefix ++ "AND s.grade = ?" ++ spSqlSuffix ∧
      (studentPerformanceCompose m g).2 =
        [SqlParam.str s, SqlParam.num (spMinGPAOf m)] ∧
      placeholderCount (studentPerformanceCompose m g).1 = 2) ∧
    placeholderCount spSqlPrefix = 0 ∧
    placeholderCount spSqlSuffix = 1 := by
  refine ⟨?_, ?_, by decide, by decide⟩
  · intro hf
    have h1 : (studentPerformanceCompose m g).1 = spSqlPrefix ++ "" ++ spSqlSuffix := by
      simp [studentPerformanceCompose, hf]
    refine ⟨h1, ?_, ?_⟩
    · simp [studentPerformanceCompose, hf]
    · rw [h1]
      simp only [placeholderCount, String.data_append, List.count_append]
      decide
  · intro s hg hs
    have ht : truthy g = true := by
      subst hg
      simpa [truthy] using hs
    have h1 : (studentPerformanceCompose m g).1 =
        spSqlPrefix ++ "AND s.grade = ?" ++ spSqlSuffix := by
      simp [studentPerformanceCompose, ht]
    refine ⟨h1, ?_, ?_⟩
    · subst hg
      simp [studentPerformanceCompose, ht]
    · rw [h1]
      simp only [placeholderCount, String.data_append, List.count_append]
      decide

/-- Witness for C2 at concrete inputs: grade supplied as "10" binds the
two parameters (grade, minGPA) in that order. -/
theorem c2_sp_parameter_binding_witness :
    ("10" : String) ≠ "" ∧
    (studentPerformanceCompose (some "3.5") (some "10")).2 =
      [SqlParam.str "10", SqlParam.num (spMinGPAOf (some "3.5"))] := by
  refine ⟨by decide, ?_⟩
  exact ((c2_sp_parameter_binding (some "3.5") (some "10")).2.1 "10" rfl
    (by decide)).2.1

/-- C3: evaluation of the in-courses guard at its failing input. An absent
courseIds parameter is rejected with the 400 error before composition, as
the claim states; but the supplied-empty-string value slips past the
`length === 0` guard, because JavaScript `"".split(',')` is `[""]` of
length 1, and a query is composed binding the list `[""]` twice. -/
theorem c3_in_courses_empty_value_executes :
    inCoursesCompose none =
      Except.error (400, "Please provide courseIds as comma-separated values") ∧
    inCoursesCompose (some "") =
      Except.ok (inCoursesSql, [SqlParam.list [""], SqlParam.list [""]]) ∧
    (∀ s q, inCoursesCompose (some s) = Except.ok q →
      q.2 = [SqlParam.list (splitComma s), SqlParam.list (splitComma s)]) := by
  refine ⟨rfl, rfl, ?_⟩
  intro s q hq
  unfold inCoursesCompose at hq
  split at hq
  · cases hq
  · cases hq
    rfl

/-- C10: every operation whose success envelope carries a count field
computes it as the length of the very row list returned as data. -/
theorem c10_count_equals_data_length :
    (∀ db g, (studentsByGradeH db g).count = (studentsByGradeH db g).data.length) ∧
    (∀ db sid, (studentEnrollmentsH db sid).count = (studentEnrollmentsH db sid).data.length) ∧
    (∀ db, (allWithEnrollmentsH db).count = (allWithEnrollmentsH db).data.length) ∧
    (∀ db m, (popularCoursesH db m).count = (popularCoursesH db m).data.length) ∧
    (∀ db mg gf, (studentPerformanceH db mg gf).count =
      (studentPerformanceH db mg gf).data.length) ∧
    (∀ db ids, (inCoursesH db ids).count = (inCoursesH db ids).data.length) ∧
    (∀ db mc mg, (topPerformersH db mc mg).count = (topPerformersH db mc mg).data.length) ∧
    (∀ db, (departmentsH db).count = (departmentsH db).data.length) :=
  ⟨fun _ _ => rfl, fun _ _ => rfl, fun _ => rfl, fun _ _ => rfl, fun _ _ _ => rfl,
   fun _ _ => rfl, fun _ _ _ => rfl, fun _ => rfl⟩

/-- C4 counterexample: in the popular-courses operation, the NULL-graded
enrollment is NOT excluded — the ELSE 0.0 branch maps it to 0.0, so the
course's average_gpa is (4.0 + 0.0) / 2 = 2, although the exclusion
semantics the claim asserts (the no-ELSE mapping) would give 4. -/
theorem c4_counterexample_popular_counts_null_as_zero :
    (popularCoursesRows c4CexDb (some 1)).map PopRow.average_gpa = [some 2] ∧
    gpaNoElseAvg [some Letter.A, none] = some 4 := by
  constructor
  · with_unfolding_all rfl
  · with_unfolding_all rfl

theorem filterMap_gradePointsNoElse_filter (gs : List (Option Letter)) :
    (gs.filter (fun g => g.isSome)).filterMap gradePointsNoElse =
      gs.filterMap gradePointsNoElse := by
  induction gs with
  | nil => rfl
  | cons g t ih =>
    cases g with
    | none => simp [gradePointsNoElse, List.filter_cons, List.filterMap_cons, ih]
    | some l =>
      cases l <;> simp [gradePointsNoElse, List.filter_cons, List.filterMap_cons, ih]

/-- C4 (amended): in the GPA aggregates whose CASE has no ELSE branch
(student-performance, course-details, top-performers, departments), a
NULL letter grade maps to NULL, is skipped by AVG, and so never changes
the average — it is excluded, not counted as 0.0; in the popular-courses
average_gpa, whose CASE ends in ELSE 0.0, a NULL grade enters the
average as the real value 0.0. -/
theorem c4_null_grade_gpa_handling (gs : List (Option Letter)) :
    gradePointsNoElse none = none ∧
    gpaNoElseAvg (none :: gs) = gpaNoElseAvg gs ∧
    gpaNoElseAvg gs = gpaNoElseAvg (gs.filter (fun g => g.isSome)) ∧
    gradePointsElse0 none = 0 ∧
    gpaElse0Avg (none :: gs) =
      sqlAvg (some 0 :: gs.map (fun g => some (gradePointsElse0 g))) := by
  refine ⟨rfl, ?_, ?_, rfl, rfl⟩
  · simp [gpaNoElseAvg, sqlAvg, gradePointsNoElse, List.filterMap_cons]
  · have h := filterMap_gradePointsNoElse_filter gs
    unfold gpaNoElseAvg sqlAvg
    simp only [List.filterMap_map, Function.id_comp]
    rw [h]

theorem aweKeys_nodup (db : Db) (hnd : (db.students.map Student.student_id).Nodup) :
    (db.students.map aweKey).Nodup := by
  refine List.Nodup.of_map Prod.fst ?_
  rw [List.map_map]
  exact hnd

/-- C5: the all-with-enrollments operation returns exactly one row per
row of the students table (with its primary key, ids are pairwise
distinct), whatever the enrollments table holds; a student with no
enrollments gets total_enrollments = 0 and the empty (NULL) GROUP_CONCAT
value; the envelope count equals the number of students. -/
theorem c5_awe_one_row_per_student (db : Db)
    (hnd : (db.students.map Student.student_id).Nodup) :
    (allWithEnrollmentsRows db).length = db.students.length ∧
    (allWithEnrollmentsH db).count = db.students.length ∧
    (∀ s ∈ db.students, enrollmentsOfStudent db s = [] →
      ∃ r ∈ allWithEnrollmentsRows db,
        r.student_id = s.student_id ∧ r.total_enrollments = 0 ∧ r.courses = none) := by
  have hkeys : (db.students.map aweKey).Nodup := aweKeys_nodup db hnd
  have hlen : (allWithEnrollmentsRows db).length = db.students.length := by
    unfold allWithEnrollmentsRows
    rw [length_sortBy, List.length_map, dedupKeys_of_nodup _ hkeys, List.length_map]
  refine ⟨hlen, hlen, ?_⟩
  intro s hs hse
  refine ⟨aweAgg db (aweKey s), ?_, rfl, ?_, ?_⟩
  · unfold allWithEnrollmentsRows
    rw [mem_sortBy]
    exact List.mem_map_of_mem (aweAgg db)
      ((mem_dedupKeys _ _).mpr (List.mem_map_of_mem aweKey hs))
  · have hg : db.students.filter (fun x => aweKey x = aweKey s) = [s] :=
      filter_key_singleton Student.student_id aweKey db.students s hnd hs
        (fun x _ h => congrArg Prod.fst h)
    show ((db.students.filter (fun x => aweKey x = aweKey s)).flatMap
      (aweJoinedOfStudent db)).countP (fun r => r.isSome) = 0
    rw [hg]
    simp [aweJoinedOfStudent, hse]
  · have hg : db.students.filter (fun x => aweKey x = aweKey s) = [s] :=
      filter_key_singleton Student.student_id aweKey db.students s hnd hs
        (fun x _ h => congrArg Prod.fst h)
    show groupConcat ", " (((db.students.filter (fun x => aweKey x = aweKey s)).flatMap
      (aweJoinedOfStudent db)).filterMap (fun r =>
        r.bind (fun p => p.2.map (fun c => c.course_name)))) = none
    rw [hg]
    simp [aweJoinedOfStudent, hse, groupConcat]

/-- Witness for C5 on the concrete database: ids are distinct and the
result has exactly one row per student. -/
theorem c5_awe_one_row_per_student_witness :
    (demoDb.students.map Student.student_id).Nodup ∧
    (allWithEnrollmentsRows demoDb).length = demoDb.students.length :=
  ⟨by decide, (c5_awe_one_row_per_student demoDb (by decide)).1⟩

theorem flatMap_eq_nil_of_forall {α β : Type} {l : List α} {f : α → List β}
    (h : ∀ x ∈ l, f x = []) : l.flatMap f = [] := by
  induction l with
  | nil => rfl
  | cons a t ih =>
    simp only [List.flatMap_cons, h a (List.mem_cons_self a t), List.nil_append]
    exact ih (fun x hx => h x (List.mem_cons_of_mem a hx))

theorem dedupKeys_eq_nil_iff [DecidableEq α] (l : List α) :
    dedupKeys l = [] ↔ l = [] := by
  constructor
  · intro h
    rcases l with _ | ⟨a, t⟩
    · rfl
    · exfalso
      have : a ∈ dedupKeys (a :: t) := (mem_dedupKeys a (a :: t)).mpr (List.mem_cons_self a t)
      rw [h] at this
      exact List.not_mem_nil a this
  · intro h
    subst h
    rfl

/-- C6: the course-details operation answers 404 with the error body and
no data exactly when the queried id matches no course row; for an
existing course (ids pairwise distinct, as the primary key guarantees)
with zero enrollments it answers 200 with one data object whose count
fields are zero, whose percentage fields are zero, and whose average,
latest-enrollment and top_student_example fields are NULL. -/
theorem c6_course_details_404_and_empty_course (db : Db) (cid : Nat) :
    (courseDetailsH db cid = Except.error (404, "Course not found") ↔
      ∀ c ∈ db.courses, c.course_id ≠ cid) ∧
    ((db.courses.map Course.course_id).Nodup →
      ∀ c ∈ db.courses, c.course_id = cid → enrollmentsOfCourse db c = [] →
      ∃ r, courseDetailsH db cid = Except.ok r ∧
        r.total_students = 0 ∧ r.grade_levels_represented = 0 ∧
        r.count_A = 0 ∧ r.count_B = 0 ∧ r.count_C = 0 ∧ r.count_D = 0 ∧ r.count_F = 0 ∧
        r.percent_A = some 0 ∧ r.percent_B = some 0 ∧
        r.average_gpa = none ∧ r.latest_enrollment = none ∧
        r.top_student_example = none) := by
  have hrows : courseDetailsRows db cid = [] ↔ ∀ c ∈ db.courses, c.course_id ≠ cid := by
    unfold courseDetailsRows
    rw [List.map_eq_nil_iff, dedupKeys_eq_nil_iff, List.map_eq_nil_iff,
      List.filter_eq_nil_iff]
    simp
  constructor
  · rcases hcd : courseDetailsRows db cid with _ | ⟨r, t⟩
    · simp only [courseDetailsH, hcd]
      simpa using hrows.mp hcd
    · simp only [courseDetailsH, hcd]
      constructor
      · intro h
        cases h
      · intro h
        exfalso
        have : courseDetailsRows db cid = [] := hrows.mpr h
        rw [hcd] at this
        cases this
  · intro hnd c hc hcid hce
    have hfilter : db.courses.filter (fun x => x.course_id = cid) = [c] := by
      rw [← hcid]
      exact filter_key_singleton Course.course_id Course.course_id db.courses c hnd hc
        (fun x _ h => h)
    have hrows' : courseDetailsRows db cid = [cdAgg db (cdKey c)] := by
      unfold courseDetailsRows
      rw [hfilter]
      rfl
    refine ⟨cdAgg db (cdKey c), by rw [courseDetailsH, hrows'], ?_⟩
    have hg : db.courses.filter (fun x => cdKey x = cdKey c) = [c] :=
      filter_key_singleton Course.course_id cdKey db.courses c hnd hc
        (fun x _ h => congrArg Prod.fst h)
    have hrs : (db.courses.filter (fun x => cdKey x = cdKey c)).flatMap
        (cdJoinedOfCourse db) = [none] := by
      rw [hg]
      simp [cdJoinedOfCourse, hce]
    have hno : ∀ e ∈ db.enrollments, ¬ (e.course_id = c.course_id) := by
      intro e he hec
      have : e ∈ enrollmentsOfCourse db c :=
        List.mem_filter.mpr ⟨he, by simpa using hec⟩
      rw [hce] at this
      exact List.not_mem_nil e this
    have htop : topStudentExample db c.course_id = none := by
      unfold topStudentExample
      have hall : ∀ s2 ∈ db.students,
          (db.enrollments.filter (fun e2 =>
            e2.student_id = s2.student_id ∧ e2.course_id = c.course_id ∧
              e2.grade = some Letter.A)).map
            (fun _ => s2.first_name ++ " " ++ s2.last_name) = [] := by
        intro s2 _
        rw [List.filter_eq_nil_iff.mpr ?_]
        · rfl
        · intro e he
          simp only [decide_eq_true_eq, not_and]
          intro _ hec _
          exact hno e he hec
      rw [flatMap_eq_nil_of_forall hall]
      rfl
    simp only [cdAgg]
    rw [hrs]
    refine ⟨rfl, rfl, rfl, rfl, rfl, rfl, rfl, ?_, ?_, rfl, rfl, htop⟩
    · with_unfolding_all rfl
    · with_unfolding_all rfl

/-- Witness for C6 on the concrete database: Chemistry (id 3) exists and
has no enrollments, so the answer is 200 with the zero/NULL profile. -/
theorem c6_course_details_witness :
    (demoDb.courses.map Course.course_id).Nodup ∧
    enrollmentsOfCourse demoDb
      { course_id := 3, course_name := "Chemistry", department := "Science", credits := 2 } = [] ∧
    (∃ r, courseDetailsH demoDb 3 = Except.ok r ∧
      r.total_students = 0 ∧ r.grade_levels_represented = 0 ∧
      r.count_A = 0 ∧ r.count_B = 0 ∧ r.count_C = 0 ∧ r.count_D = 0 ∧ r.count_F = 0 ∧
      r.percent_A = some 0 ∧ r.percent_B = some 0 ∧
      r.average_gpa = none ∧ r.latest_enrollment = none ∧
      r.top_student_example = none) := by
  refine ⟨by decide, by decide, ?_⟩
  exact (c6_course_details_404_and_empty_course demoDb 3).2 (by decide)
    { course_id := 3, course_name := "Chemistry", department := "Science", credits := 2 }
    (by decide) rfl (by decide)

theorem gradePointsNoElse_isSome (g : Option Letter) (h : g ≠ none) :
    ∃ v, gradePointsNoElse g = some v := by
  cases g with
  | none => exact absurd rfl h
  | some l => cases l <;> exact ⟨_, rfl⟩

theorem filterMap_id_map_some {α β : Type} (f : α → β) (l : List α) :
    (l.map (fun a => some (f a))).filterMap id = l.map f := by
  induction l with
  | nil => rfl
  | cons a t ih => simp [List.filterMap_cons, ih]

theorem filterMap_weighted_num (l : List (Option Letter × Nat))
    (h : ∀ p ∈ l, p.1 ≠ none) :
    (l.map (fun p => (gradePointsNoElse p.1).map (fun q => q * (p.2 : Rat)))).filterMap id =
      l.map (fun p => (gradePointsNoElse p.1).getD 0 * (p.2 : Rat)) := by
  induction l with
  | nil => rfl
  | cons p t ih =>
    obtain ⟨v, hv⟩ := gradePointsNoElse_isSome p.1 (h p (List.mem_cons_self p t))
    simp [List.filterMap_cons, hv, ih (fun x hx => h x (List.mem_cons_of_mem p hx))]

theorem weightedGpaGC_all_graded (l : List (Option Letter × Nat))
    (h : ∀ p ∈ l, p.1 ≠ none)
    (hd : (l.map (fun p => ((p.2 : Nat) : Rat))).sum ≠ 0) :
    weightedGpaGC l = some (mysqlRound2 (
      (l.map (fun p => (gradePointsNoElse p.1).getD 0 * (p.2 : Rat))).sum /
      (l.map (fun p => ((p.2 : Nat) : Rat))).sum)) := by
  have hne : l ≠ [] := by
    rintro rfl
    simp at hd
  have hlen : l.length ≠ 0 := fun h' => hne (List.length_eq_zero.mp h')
  unfold weightedGpaGC sqlSum
  rw [filterMap_weighted_num l h, filterMap_id_map_some]
  simp only [List.length_map, hlen, if_false, ratDiv0, hd]
  simp [hlen, ratDiv0, hd]

/-- C7: whenever a student row appears in the top-performers output (ids
pairwise distinct), its weighted_gpa is exactly the weighted-GPA
aggregate of that student's join rows; when all the student's grades are
non-NULL and the credit total is non-zero this equals
round(Σ(grade_point × credits) / Σ(credits), 2) with A→4, B→3, C→2, D→1,
F→0; in particular, enrollments exactly [(A, 4 credits), (B, 3 credits)]
give weighted_gpa = round(25/7, 2) = 3.57. -/
theorem c7_weighted_gpa_formula (db : Db) (mc : Int) (mg : Rat) (s : Student) (r : TpRow)
    (hnd : (db.students.map Student.student_id).Nodup)
    (hs : s ∈ db.students)
    (hr : r ∈ topPerformersRows db mc mg)
    (hid : r.student_id = s.student_id) :
    r.weighted_gpa = weightedGpa (perfRows db s) ∧
    ((∀ ec ∈ perfRows db s, ec.1.grade ≠ none) →
      ((perfRows db s).map (fun ec => ((ec.2.credits : Nat) : Rat))).sum ≠ 0 →
      r.weighted_gpa = some (mysqlRound2 (
        ((perfRows db s).map (fun ec =>
          (gradePointsNoElse ec.1.grade).getD 0 * (ec.2.credits : Rat))).sum /
        ((perfRows db s).map (fun ec => ((ec.2.credits : Nat) : Rat))).sum))) ∧
    ((perfRows db s).map (fun ec => (ec.1.grade, ec.2.credits)) =
        [(some Letter.A, 4), (some Letter.B, 3)] →
      r.weighted_gpa = some (357/100)) := by
  have hr1 : r ∈ tpAggRows db := by
    have h2 : r ∈ sortBy tpLe ((tpAggRows db).filter (tpHaving mc mg)) :=
      List.take_subset 20 _ hr
    exact (List.mem_filter.mp ((mem_sortBy _ _ _).mp h2)).1
  obtain ⟨k, hk, hrk⟩ := List.mem_map.mp hr1
  obtain ⟨t, ht, htk⟩ := List.mem_map.mp ((mem_dedupKeys _ _).mp hk)
  have ht' : t ∈ db.students := (List.mem_filter.mp ht).1
  have hts : t = s := by
    apply List.inj_on_of_nodup_map hnd ht' hs
    have h1 : r.student_id = t.student_id := by
      rw [← hrk, ← htk]
      rfl
    rw [← h1, hid]
  subst hts
  have hgroup : db.students.filter (fun x => tpKey x = tpKey t) = [t] :=
    filter_key_singleton Student.student_id tpKey db.students t hnd hs
      (fun x _ h => congrArg Prod.fst h)
  have hwg : r.weighted_gpa = weightedGpa (perfRows db t) := by
    rw [← hrk, ← htk]
    simp only [tpAgg]
    rw [hgroup]
    simp
  refine ⟨hwg, ?_, ?_⟩
  · intro hall hden
    rw [hwg]
    unfold weightedGpa
    rw [weightedGpaGC_all_graded ((perfRows db t).map (fun ec => (ec.1.grade, ec.2.credits)))
      (fun p hp => by
        obtain ⟨ec, hec, hecp⟩ := List.mem_map.mp hp
        rw [← hecp]
        exact hall ec hec)
      (by simpa [List.map_map, Function.comp_def] using hden)]
    simp [List.map_map, Function.comp_def]
  · intro hmap
    rw [hwg]
    unfold weightedGpa
    rw [hmap]
    with_unfolding_all rfl

/-- Witness for C7 on the concrete database: Ada's enrollments are
exactly [(A, 4 credits), (B, 3 credits)] and her output row carries
weighted_gpa 3.57. -/
theorem c7_weighted_gpa_formula_witness :
    (demoDb.students.map Student.student_id).Nodup ∧
    demoAda ∈ demoDb.students ∧
    demoTpRow ∈ topPerformersRows demoDb 2 3 ∧
    demoTpRow.student_id = demoAda.student_id ∧
    (perfRows demoDb demoAda).map (fun ec => (ec.1.grade, ec.2.credits)) =
      [(some Letter.A, 4), (some Letter.B, 3)] ∧
    demoTpRow.weighted_gpa = some (357/100) := by
  have hmem : demoTpRow ∈ topPerformersRows demoDb 2 3 :=
    of_decide_eq_true (by with_unfolding_all rfl)
  refine ⟨by decide, by decide, hmem, rfl, by with_unfolding_all rfl, ?_⟩
  exact (c7_weighted_gpa_formula demoDb 2 3 demoAda demoTpRow (by decide) (by decide)
    hmem rfl).2.2 (by with_unfolding_all rfl)

/-- C8: every row of the top-performers output satisfies both thresholds
(distinct course count at least minCourses and a non-NULL weighted GPA at
least minGPA), the output never exceeds 20 rows, and — whenever at most
20 aggregate rows qualify — every qualifying aggregate row does appear in
the output. -/
theorem c8_top_performers_filter_and_cap (db : Db) (mc : Int) (mg : Rat) :
    (∀ r ∈ topPerformersRows db mc mg,
      mc ≤ (r.courses_completed : Int) ∧ ∃ w, r.weighted_gpa = some w ∧ mg ≤ w) ∧
    (topPerformersRows db mc mg).length ≤ 20 ∧
    (((tpAggRows db).filter (tpHaving mc mg)).length ≤ 20 →
      ∀ r ∈ tpAggRows db, tpHaving mc mg r = true → r ∈ topPerformersRows db mc mg) := by
  refine ⟨?_, ?_, ?_⟩
  · intro r hr
    have h2 : r ∈ sortBy tpLe ((tpAggRows db).filter (tpHaving mc mg)) :=
      List.take_subset 20 _ hr
    have h3 := (List.mem_filter.mp ((mem_sortBy _ _ _).mp h2)).2
    unfold tpHaving at h3
    rw [Bool.and_eq_true] at h3
    obtain ⟨h4, h5⟩ := h3
    refine ⟨of_decide_eq_true h4, ?_⟩
    rcases hw : r.weighted_gpa with _ | w
    · unfold optGe at h5
      rw [hw] at h5
      cases h5
    · unfold optGe at h5
      rw [hw] at h5
      exact ⟨w, rfl, of_decide_eq_true h5⟩
  · unfold topPerformersRows
    exact List.length_take_le 20 _
  · intro hle r hr hhav
    unfold topPerformersRows
    have hmem : r ∈ sortBy tpLe ((tpAggRows db).filter (tpHaving mc mg)) :=
      (mem_sortBy _ _ _).mpr (List.mem_filter.mpr ⟨hr, hhav⟩)
    rw [List.take_of_length_le]
    · exact hmem
    · rw [length_sortBy]
      exact hle

/-- Witness for C8 on the concrete database: Ada's aggregate row
qualifies for thresholds (1, 1.0), at most 20 rows qualify, and the row
indeed appears in the output. -/
theorem c8_top_performers_filter_and_cap_witness :
    ((tpAggRows demoDb).filter (tpHaving 1 1)).length ≤ 20 ∧
    demoTpRow ∈ tpAggRows demoDb ∧
    tpHaving 1 1 demoTpRow = true ∧
    demoTpRow ∈ topPerformersRows demoDb 1 1 := by
  have h1 : ((tpAggRows demoDb).filter (tpHaving 1 1)).length ≤ 20 :=
    of_decide_eq_true (by with_unfolding_all rfl)
  have h2 : demoTpRow ∈ tpAggRows demoDb :=
    of_decide_eq_true (by with_unfolding_all rfl)
  have h3 : tpHaving 1 1 demoTpRow = true := by with_unfolding_all rfl
  exact ⟨h1, h2, h3,
    (c8_top_performers_filter_and_cap demoDb 1 1).2.2 h1 demoTpRow h2 h3⟩

end SchoolApp
